import Mathlib

set_option maxRecDepth 100000

/-!
# Verification of the Khmer news pipeline (ingestion → publication)

Shallow embedding, in Lean 4, of the parts of the repository that the
frozen claims are about:

* `quality_scorer.py` — `QualityScorer.score_article`
* `deduplication.py` — (not needed by the claims verified here)
* `scheduler.py` — `SmartScheduler.can_post`, `is_peak_hour`, `is_off_hour`
* `translation_manager.py` — `CircuitBreaker`, `TranslationManager.translate_content`,
  `_fallback_translate`, `verify_translation`
* `db.py` — `is_posted`, `mark_as_posted`, `add_failed_post`, `update_retry_status`
* `main.py` — `RateLimiter.acquire`, `retry_worker` (per-entry body),
  the worker's publish fan-out (`post_to_facebook` / `post_to_telegram` /
  `post_to_x` + `mark_as_posted`)

Conventions used throughout:

* Machine time (`time.time()`, SQLite `datetime('now')`) is modelled as `Int`
  (seconds, except in the rate-limiter section, which uses tenths of a second
  so that the literal `0.1`-second buffer is integral).
* Fallible collaborator calls (Gemini, Google-translate fallback, channel
  posts) are modelled as explicit `Except`/`Bool` inputs: a `.error`/`false`
  input stands for the Python call raising.
* Python dictionary rows become structures; SQLite tables become `List`s of
  those structures.
-/

/- ======================================================================
   Quality Gate — quality_scorer.py, class QualityScorer
   ====================================================================== -/

/-- An article dict as assembled by the pipeline (`main.py` worker):
`title`, `link`, `summary`, optional `image_url`, `source`. -/
structure Article where
  title : String
  link : String
  summary : String
  image_url : Option String
  source : String
  deriving Repr, DecidableEq

/-- Python truthiness of `article.get("image_url")`: `None` and `""` are falsy. -/
def imageTruthy : Option String → Bool
  | some s => !s.isEmpty
  | none => false

/-- Substring test, modelling Python's `kw in text`: `kw` occurs contiguously
in `text` at some offset. -/
def containsSub (text kw : String) : Bool :=
  (List.range (text.toList.length + 1)).any
    (fun i => kw.toList.isPrefixOf (text.toList.drop i))

/-- ASCII lowering of one character (`A`–`Z` ↦ `a`–`z`). -/
def charLower (c : Char) : Char :=
  if 'A' ≤ c && c ≤ 'Z' then Char.ofNat (c.toNat + 32) else c

/-- Python's `str.lower()`.  The configured keyword lists are ASCII, and on
ASCII text this agrees with Python's Unicode lowercasing. -/
def lowerStr (s : String) : String :=
  String.mk (s.toList.map charLower)

/-- `self.SENSITIVE_KEYWORDS` from quality_scorer.py. -/
def SENSITIVE_KEYWORDS : List String := ["sex", "porn", "xxx", "gambling"]

/-- `self.SPAM_KEYWORDS` from quality_scorer.py. -/
def SPAM_KEYWORDS : List String :=
  ["buy now", "click here", "subscribe", "free money", "winner", "lottery", "casino"]

/-- Source reputation multipliers (`self.source_weights`), scaled by 10 so the
values 1.1, 1.0, 1.2, 1.1, 1.1, 1.3 (default 1.0) become the naturals
11, 10, 12, 11, 11, 13 (default 10). -/
def source_weight_tenths (source : String) : Nat :=
  if source == "Fresh News" then 11
  else if source == "Koh Santepheap" then 10
  else if source == "Phnom Penh Post" then 12
  else if source == "Cambodia Daily" then 11
  else if source == "Khmer Times" then 11
  else if source == "BBC News" then 13
  else 10

/-- `min(int(self.weights["source"] * w), 20)`.  Computed as
`min ((15 * tenths) / 10) 20` over `Nat`; for every configured weight this
rational floor equals the Python float computation
(`int(15*1.1)=16`, `int(15*1.0)=15`, `int(15*1.2)=18`, `int(15*1.3)=19`). -/
def sourceContribution (source : String) : Nat :=
  min (15 * source_weight_tenths source / 10) 20

/-- Outcome of the Gemini zero-shot classifier `_gemini_classify`, which
always returns one of these four labels (on an unclear answer or an internal
exception it returns the neutral `High Quality News` fallback itself). -/
inductive Classification where
  | HighQualityNews
  | Clickbait
  | Spam
  | Sensitive
  deriving Repr, DecidableEq

/-- `QualityScorer.score_article`.  The classifier call is an input:
`some c` is the label returned by `_gemini_classify`, `none` models the
outer `except` branch of step 3 (neutral `ai_score = 15`). -/
def score_article (a : Article) (ai : Option Classification) : Nat × List String :=
  let score : Nat := 0
  let reasons : List String := []
  -- 1. Basic checks
  let (score, reasons) :=
    if a.title.length < 20 then (score, reasons ++ ["Title too short"])
    else (score + 15, reasons)
  let (score, reasons) :=
    if a.summary.length < 100 then (score, reasons ++ ["Summary too short"])
    else (score + 20, reasons)
  let (score, reasons) :=
    if imageTruthy a.image_url then (score + 10, reasons)
    else (score, reasons ++ ["No image"])
  let score := score + sourceContribution a.source
  -- 2. Keyword safety check
  let text := lowerStr (a.title ++ " " ++ a.summary)
  if SENSITIVE_KEYWORDS.any (fun kw => containsSub text kw) then
    (0, ["Sensitive content detected"])
  else
    let (score, reasons) :=
      if SPAM_KEYWORDS.any (fun kw => containsSub text kw) then
        (score, reasons ++ ["Spam keywords"])
      else (score + 10, reasons)
    -- 3. Gemini AI scoring
    match ai with
    | some .HighQualityNews => (min (score + 30) 100, reasons)
    | some .Clickbait => (min score 100, reasons ++ ["AI detected clickbait"])
    | some .Spam => (0, ["AI detected spam"])
    | some .Sensitive => (0, ["AI detected sensitive"])
    | none => (min (score + 15) 100, reasons)

/-- The pre-floor, pre-cap points accumulated by step 1 of `score_article`
(title length, summary length, image, source weight).  Bookkeeping definition
used to state and prove facts about the score. -/
def score_base (a : Article) : Nat :=
  (if a.title.length < 20 then 0 else 15) +
  (if a.summary.length < 100 then 0 else 20) +
  (if imageTruthy a.image_url then 10 else 0) +
  sourceContribution a.source

/- ======================================================================
   Scheduler — scheduler.py, class SmartScheduler
   ====================================================================== -/

/-- `self.PEAK_HOURS` (scheduler.py). -/
def PEAK_HOURS : List Nat := [7, 8, 9, 11, 12, 13, 17, 18, 19, 20]

/-- `self.OFF_HOURS` (scheduler.py). -/
def OFF_HOURS : List Nat := [2, 3, 4, 5]

/-- `self.MIN_PLATFORM_DELAY` = 300 s. -/
def MIN_PLATFORM_DELAY : Int := 300

/-- `self.MIN_CATEGORY_DELAY` = 1800 s. -/
def MIN_CATEGORY_DELAY : Int := 1800

/-- `self.BURST_DELAY` = 60 s. -/
def BURST_DELAY : Int := 60

/-- Mutable state of a `SmartScheduler`: burst flag and the two
last-post-timestamp dictionaries. -/
structure SchedulerState where
  burst_mode : Bool
  last_post_time : List (String × Int)
  last_category_time : List (String × Int)
  deriving Repr, DecidableEq

/-- Python `dict.get(key, 0)` on an association list. -/
def dictGetD (l : List (String × Int)) (k : String) : Int :=
  (((l.find? (fun p => p.1 == k)).map (fun p => p.2)).getD 0)

/-- `SmartScheduler.is_peak_hour`, with the current ICT hour passed in. -/
def is_peak_hour (hour : Nat) : Bool :=
  PEAK_HOURS.contains hour

/-- `SmartScheduler.is_off_hour`, with the current ICT hour passed in. -/
def is_off_hour (s : SchedulerState) (hour : Nat) : Bool :=
  if s.burst_mode then false else OFF_HOURS.contains hour

/-- `SmartScheduler.can_post`.  `now` is `time.time()` in seconds, `hour`
the current ICT hour. -/
def can_post (s : SchedulerState) (now : Int) (hour : Nat)
    (platform category : String) (priority : Int) : Bool :=
  -- 1. Breaking news overrides all time rules
  if priority ≥ 3 then true
  -- 2. Burst mode overrides off-hours (`if BURST_MODE: pass elif is_off_hour(): return False`)
  else if !s.burst_mode && is_off_hour s hour then false
  else
    -- 3. Platform spacing
    let last_p := dictGetD s.last_post_time platform
    let min_delay := if s.burst_mode then BURST_DELAY else MIN_PLATFORM_DELAY
    if now - last_p < min_delay then false
    -- 4. Category spacing, normal priority only
    else if priority == 1 then
      if now - dictGetD s.last_category_time category < MIN_CATEGORY_DELAY then false
      else true
    else true

/-- `SmartScheduler.record_post`. -/
def record_post (s : SchedulerState) (now : Int) (platform category : String) :
    SchedulerState :=
  { s with
    last_post_time := (platform, now) :: s.last_post_time.filter (fun p => p.1 != platform),
    last_category_time := (category, now) :: s.last_category_time.filter (fun p => p.1 != category) }

/-- Modelled from the claim's words (for comparison with `can_post`, which is
the code's version): the same policy but with the per-channel minimum spacing
halved during configured peak hours. -/
def can_post_claimVersion (s : SchedulerState) (now : Int) (hour : Nat)
    (platform category : String) (priority : Int) : Bool :=
  if priority ≥ 3 then true
  else if !s.burst_mode && is_off_hour s hour then false
  else
    let last_p := dictGetD s.last_post_time platform
    let base := if s.burst_mode then BURST_DELAY else MIN_PLATFORM_DELAY
    let min_delay := if is_peak_hour hour then base / 2 else base
    if now - last_p < min_delay then false
    else if priority == 1 then
      if now - dictGetD s.last_category_time category < MIN_CATEGORY_DELAY then false
      else true
    else true

/- ======================================================================
   Article Store — db.py: tables `posted` and `pending_posts`,
   functions `is_posted`, `mark_as_posted`
   ====================================================================== -/

/-- A row of the `posted` table (`PostedRecord`). -/
structure PostedRow where
  article_id : String
  title : String
  category : String
  source : String
  language : String
  deriving Repr, DecidableEq

/-- A row of the `pending_posts` queue (only the columns `is_posted`
consults, plus `status`, which `is_posted` ignores). -/
structure PendingRow where
  article_id : String
  title : String
  status : String
  deriving Repr, DecidableEq

/-- The durable Article Store: the `posted` and `pending_posts` tables. -/
structure Store where
  posted : List PostedRow
  pending : List PendingRow
  deriving Repr, DecidableEq

/-- `db.is_posted`: true iff a `posted` row **or** a `pending_posts` row
(of any status) exists for the id. -/
def is_posted (s : Store) (aid : String) : Bool :=
  s.posted.any (fun r => r.article_id == aid) ||
  s.pending.any (fun r => r.article_id == aid)

/-- `db.mark_as_posted`: `INSERT OR IGNORE` into `posted`
(`article_id` is the primary key). -/
def mark_as_posted (s : Store) (row : PostedRow) : Store :=
  if s.posted.any (fun r => r.article_id == row.article_id) then s
  else { s with posted := s.posted ++ [row] }

/- ======================================================================
   Retry Ledger — db.py: table `failed_posts`,
   functions `add_failed_post`, `update_retry_status`
   ====================================================================== -/

/-- `status` column of `failed_posts`. -/
inductive RStatus where
  | PENDING
  | RETRYING
  | SUCCESS
  | DEAD
  deriving Repr, DecidableEq

/-- A row of the `failed_posts` table (a `RetryEntry`). -/
structure RetryEntry where
  id : Nat
  article_id : String
  platform : String
  error_type : String
  retry_count : Nat
  next_retry : Int
  status : RStatus
  article_data : String
  deriving Repr, DecidableEq

/-- The `WHERE article_id=? AND platform=? AND status IN ('PENDING','RETRYING')`
row predicate of `add_failed_post`. -/
def isActiveFor (aid platform : String) (e : RetryEntry) : Bool :=
  e.article_id == aid && e.platform == platform &&
    (e.status == RStatus.PENDING || e.status == RStatus.RETRYING)

/-- The duplicate check inside `add_failed_post`. -/
def hasActive (ledger : List RetryEntry) (aid platform : String) : Bool :=
  ledger.any (isActiveFor aid platform)

/-- Fresh `AUTOINCREMENT` id for an insert. -/
def freshId (ledger : List RetryEntry) : Nat :=
  ledger.foldl (fun m e => max m (e.id + 1)) 0

/-- `db.add_failed_post`: no-op when an active (PENDING/RETRYING) entry for
the `(article, platform)` pair exists, otherwise insert a fresh row with
`retry_count = 0` (column default), `status = 'PENDING'` (column default) and
`next_retry = datetime('now', '+1 minute')`. -/
def add_failed_post (ledger : List RetryEntry)
    (aid platform error_type article_data : String) (now : Int) : List RetryEntry :=
  if hasActive ledger aid platform then ledger
  else ledger ++ [{ id := freshId ledger, article_id := aid, platform := platform,
                    error_type := error_type, retry_count := 0,
                    next_retry := now + 60, status := RStatus.PENDING,
                    article_data := article_data }]

/-- `db.update_retry_status`: for `status = 'PENDING'` also set `retry_count`
and `next_retry = datetime('now', '+<delay> minutes')`; otherwise set only
`status`.  Applied to every row whose `id` matches (ids are unique in SQLite;
the list model makes no such assumption). -/
def update_retry_status (ledger : List RetryEntry) (id : Nat) (status : RStatus)
    (retry_count : Nat) (next_delay_minutes : Nat) (now : Int) : List RetryEntry :=
  ledger.map (fun e =>
    if e.id == id then
      if status == RStatus.PENDING then
        { e with status := status, retry_count := retry_count,
                 next_retry := now + next_delay_minutes * 60 }
      else { e with status := status }
    else e)

/-- Number of active entries a ledger holds for one `(article, platform)` pair. -/
def activeCount (ledger : List RetryEntry) (aid platform : String) : Nat :=
  ledger.countP (fun e => isActiveFor aid platform e)

/-- The Retry Ledger invariant: at most one active (PENDING/RETRYING) entry
per `(article, channel)` pair. -/
def AtMostOneActive (ledger : List RetryEntry) : Prop :=
  ∀ aid platform : String, activeCount ledger aid platform ≤ 1

/- ======================================================================
   Retry Worker — main.py, retry_worker (body for one due entry)
   ====================================================================== -/

/-- The exponential backoff table `delays = [1, 5, 15, 60, 360]` (minutes). -/
def RETRY_DELAYS : List Nat := [1, 5, 15, 60, 360]

/-- The retry worker's handling of one due `PENDING` entry
(main.py, `retry_worker`, the body of the `for row in pending` loop),
expressed as its effect on that entry.  `attemptSucceeds` is the outcome the
channel post would have; the returned `Bool` records whether a publish attempt
was made at all.

* `retry_count >= 5` → mark `DEAD`, **no** attempt;
* attempt succeeds → mark `SUCCESS`;
* attempt fails → back to `PENDING` with `retry_count + 1` and
  `next_retry = now + delays[min(retry_count, 4)]` minutes
  (via `db.update_retry_status`). -/
def retry_worker_step (e : RetryEntry) (now : Int) (attemptSucceeds : Bool) :
    RetryEntry × Bool :=
  if e.retry_count ≥ 5 then
    ({ e with status := RStatus.DEAD }, false)
  else if attemptSucceeds then
    ({ e with status := RStatus.SUCCESS }, true)
  else
    ({ e with status := RStatus.PENDING, retry_count := e.retry_count + 1,
              next_retry := now + (RETRY_DELAYS.getD (min e.retry_count 4) 360) * 60 },
     true)

/-- `n` consecutive failing retry cycles applied to an entry
(each cycle picks the entry when due and its publish attempt fails). -/
def failTrace (e : RetryEntry) : Nat → RetryEntry
  | 0 => e
  | n + 1 => (retry_worker_step (failTrace e n) 0 false).1

/- ======================================================================
   Circuit Breaker — translation_manager.py class CircuitBreaker
   (identical logic in main.py lines 351–379)
   ====================================================================== -/

inductive CBState where
  | CLOSED
  | OPEN
  | HALF_OPEN
  deriving Repr, DecidableEq

structure CircuitBreaker where
  failure_threshold : Nat
  recovery_timeout : Int
  failures : Nat
  last_failure_time : Int
  state : CBState
  deriving Repr, DecidableEq

/-- `CircuitBreaker.__init__(failure_threshold=5, recovery_timeout=600)`. -/
def CircuitBreaker.init (failure_threshold : Nat := 5) (recovery_timeout : Int := 600) :
    CircuitBreaker :=
  { failure_threshold := failure_threshold, recovery_timeout := recovery_timeout,
    failures := 0, last_failure_time := 0, state := CBState.CLOSED }

/-- `CircuitBreaker.record_failure` (`now` is `time.time()`). -/
def record_failure (cb : CircuitBreaker) (now : Int) : CircuitBreaker :=
  let cb := { cb with failures := cb.failures + 1, last_failure_time := now }
  if cb.failures ≥ cb.failure_threshold then { cb with state := CBState.OPEN }
  else cb

/-- `CircuitBreaker.record_success`. -/
def record_success (cb : CircuitBreaker) : CircuitBreaker :=
  { cb with failures := 0, state := CBState.CLOSED }

/-- `CircuitBreaker.allow_request` (`now` is `time.time()`); returns the
answer and the possibly updated breaker (OPEN → HALF-OPEN on timeout). -/
def allow_request (cb : CircuitBreaker) (now : Int) : Bool × CircuitBreaker :=
  match cb.state with
  | CBState.CLOSED => (true, cb)
  | CBState.OPEN =>
    if now - cb.last_failure_time > cb.recovery_timeout then
      (true, { cb with state := CBState.HALF_OPEN })
    else (false, cb)
  | CBState.HALF_OPEN => (true, cb)

/-- Iterated `record_failure` (all at the same timestamp). -/
def recordFailures (cb : CircuitBreaker) (now : Int) : Nat → CircuitBreaker
  | 0 => cb
  | n + 1 => record_failure (recordFailures cb now n) now

/- ======================================================================
   Translator — translation_manager.py, class TranslationManager
   ====================================================================== -/

/-- A rendered-content dict `{title, body, summary, social_blurb}` as parsed
from the Gemini JSON response, cached in `translation_cache`, or produced by
the fallback translator.  `none` models a missing key (or JSON `null`). -/
structure Content where
  title : Option String
  body : Option String
  summary : Option String
  social_blurb : Option String
  deriving Repr, DecidableEq

/-- Python truthiness of `result.get(key)` for a string field. -/
def truthyOpt : Option String → Bool
  | some s => !s.isEmpty
  | none => false

/-- `TranslationManager.verify_translation` (back-translation verification):
reject empty output and output shorter than ~20 % of the source.
`len(translated) < len(original) * 0.2` is the exact integer inequality
`5 * len(translated) < len(original)` (for these integer lengths the float
computation never rounds across the boundary). -/
def verify_translation (original translated : String) : Bool :=
  if translated.isEmpty then false
  else if 5 * translated.length < original.length then false
  else true

/-- `TranslationManager._fallback_translate`.  `fallbackCall` is the outcome
of the Google-translate thread (`.error` = it raised): on failure the original
text is returned verbatim (`{"title": article['title'], "body": article['summary'],
"summary": article['summary']}`). -/
def fallback_translate (a : Article) (fallbackCall : Except String Content) :
    Except String Content :=
  match fallbackCall with
  | Except.ok c => Except.ok c
  | Except.error _ =>
    Except.ok { title := some a.title, body := some a.summary,
                summary := some a.summary, social_blurb := none }

/-- `TranslationManager.translate_content`, for an article with the fields the
data model guarantees.  External effects are inputs:

* `cached` — the `db.get_translation` result;
* `cb`, `now` — the manager's circuit breaker and the current time;
* `gemini` — the Gemini render/parse chain: `.error` covers the call raising,
  markdown/JSON parse failure, and a non-dict/non-list payload;
* `fallbackCall` — the Google-translate fallback thread.

Returns the result (`.error` would mean an exception escapes to the caller)
and the breaker as updated by the call. -/
def translate_content (a : Article) (cached : Option Content) (cb : CircuitBreaker)
    (now : Int) (gemini : Except String Content)
    (fallbackCall : Except String Content) :
    (Except String Content) × CircuitBreaker :=
  -- 1. check cache
  match cached with
  | some c => (Except.ok c, cb)
  | none =>
    -- 2. circuit breaker
    let (allowed, cb) := allow_request cb now
    if !allowed then (fallback_translate a fallbackCall, cb)
    else
      -- 3. Gemini translation
      match gemini with
      | Except.error _ => (fallback_translate a fallbackCall, record_failure cb now)
      | Except.ok result =>
        -- required fields present?  (`not result.get('title') or not result.get('body')`)
        if !truthyOpt result.title || !truthyOpt result.body then
          (fallback_translate a fallbackCall, record_failure cb now)
        -- 4. verify (`result.get('summary', result.get('body', ''))`)
        else if !verify_translation a.summary
                  ((result.summary).getD ((result.body).getD "")) then
          (fallback_translate a fallbackCall, record_failure cb now)
        else
          -- 5. success: record and cache
          (Except.ok result, record_success cb)

/- ======================================================================
   Rate Limiter — main.py, class RateLimiter
   ====================================================================== -/

/-- A per-platform budget from `config.RATE_LIMITS`.  Time in this section is
measured in **tenths of a second**, so the `0.1`-second buffer is the
integer 1 (a 1-second period is 10). -/
structure RateLimit where
  calls : Nat
  period : Int
  deriving Repr, DecidableEq

/-- The sliding-window prune `[t for t in usage if now - t < period]`. -/
def pruneWindow (usage : List Int) (now : Int) (period : Int) : List Int :=
  usage.filter (fun t => now - t < period)

/-- Result of one `RateLimiter.acquire` call on a configured platform. -/
structure AcquireResult where
  finish : Int
  usage : List Int
  remaining : Int
  deriving Repr, DecidableEq

/-- Body of `RateLimiter.acquire` for a configured platform, run under the
platform's `asyncio.Lock` (the lock is held across the sleep, so concurrent
callers are fully serialized).  `now` is the entry time; the returned
`finish` is the time the call completes (= `now` plus any `asyncio.sleep`).

Prune the window; if the remaining count has reached the budget, wait
`period - (now - oldest) + 0.1` (the buffer), re-read the clock, re-prune,
then record the call and return the tokens remaining. -/
def acquire_step (usage : List Int) (now : Int) (lim : RateLimit) : AcquireResult :=
  let pruned := pruneWindow usage now lim.period
  if pruned.length ≥ lim.calls then
    let oldest := pruned.headD 0
    let wait := lim.period - (now - oldest) + 1
    let now2 := now + wait
    let pruned2 := pruneWindow pruned now2 lim.period
    let usage2 := pruned2 ++ [now2]
    { finish := now2, usage := usage2, remaining := (lim.calls : Int) - usage2.length }
  else
    let usage2 := pruned ++ [now]
    { finish := now, usage := usage2, remaining := (lim.calls : Int) - usage2.length }

/-- State of a sequence of serialized `acquire` calls on one platform. -/
structure RLState where
  finishes : List Int
  usage : List Int
  lockAvail : Int
  deriving Repr, DecidableEq

/-- Run a batch of concurrent `acquire` calls (given their arrival times, in
FIFO lock order): each call enters the critical section at
`max(arrival, time the previous call released the lock)`. -/
def serial_acquires (lim : RateLimit) (arrivals : List Int) : RLState :=
  arrivals.foldl
    (fun st arr =>
      let start := max arr st.lockAvail
      let r := acquire_step st.usage start lim
      { finishes := st.finishes ++ [r.finish], usage := r.usage, lockAvail := r.finish })
    { finishes := [], usage := [], lockAvail := 0 }

/- ======================================================================
   Worker pipeline — main.py, worker(): per-entry stage order and the
   publish fan-out
   ====================================================================== -/

/-- The stages the worker runs (or skips to) for one feed entry, in program
order (main.py worker, inner `for src` loop body). -/
inductive WorkerAction where
  | skipPosted        -- `if await db.is_posted(aid): continue`
  | rejectQuality     -- `if q_score < 60: ... continue`
  | skipDuplicate     -- duplicate: `mark_as_posted` + `continue`
  | translateStage    -- `article = await translate(article)`
  | publishStage      -- the facebook/telegram/x fan-out
  deriving Repr, DecidableEq

/-- Per-entry control flow of the worker, given the outcomes of the three
gates it consults (idempotence check, quality score, duplicate check):
the ordered list of stages the entry reaches. -/
def worker_process_entry (postedAlready : Bool) (qscore : Nat) (isDup : Bool) :
    List WorkerAction :=
  if postedAlready then [WorkerAction.skipPosted]
  else if qscore < 60 then [WorkerAction.rejectQuality]
  else if isDup then [WorkerAction.skipDuplicate]
  else [WorkerAction.translateStage, WorkerAction.publishStage]

/-- The three publishing channels of main.py. -/
inductive Channel where
  | facebook
  | telegram
  | x
  deriving Repr, DecidableEq

/-- Behaviour of one Facebook Graph API call (`/photos` or `/feed`) as
observed by `post_to_facebook`: the server answers 200-with-id, answers an
error response (carrying the error message the code reads out of the JSON),
or the call raises on every try of the surrounding backoff decorator
(`raises exc` is the net behaviour of
`@backoff.on_exception(backoff.expo, Exception, max_tries=3)` under a
persistent fault such as a network failure: after three raising tries the
exception `exc` is re-raised to the caller). -/
inductive FBCallRes where
  | ok200
  | errorResponse (errMsg : String)
  | raises (exc : String)
  deriving Repr, DecidableEq

/-- `post_to_facebook` (main.py lines 529–597), external semantics of one
body execution.  The body has **no** try/except around its HTTP calls, so a
raising call propagates (through the backoff decorator) to the caller —
modelled as `.error exc`.  With credentials missing it returns `False`
without touching the ledger.  For an article with a (truthy) image it tries
the photo post first: 200 → `True`; an error response enqueues a facebook
RetryEntry (`error_type = "FBPhotoError: ..."`) **and falls through** to the
link post — so photo-fail-then-link-success returns `True` while leaving the
entry enqueued.  The link post: 200 → `True`; error response → enqueue
(`"FBLinkError: ..."`, a no-op if the photo failure already left an active
entry) and return `False`. -/
def post_to_facebook (creds hasImage : Bool) (photoRes linkRes : FBCallRes)
    (aid data : String) (l : List RetryEntry) (now : Int) :
    (Except String Bool) × List RetryEntry :=
  if !creds then (Except.ok false, l)
  else
    let linkStep : List RetryEntry → (Except String Bool) × List RetryEntry :=
      fun l =>
        match linkRes with
        | FBCallRes.ok200 => (Except.ok true, l)
        | FBCallRes.errorResponse m =>
            (Except.ok false,
             add_failed_post l aid "facebook" ("FBLinkError: " ++ m) data now)
        | FBCallRes.raises exc => (Except.error exc, l)
    if hasImage then
      match photoRes with
      | FBCallRes.ok200 => (Except.ok true, l)
      | FBCallRes.errorResponse m =>
          linkStep (add_failed_post l aid "facebook" ("FBPhotoError: " ++ m) data now)
      | FBCallRes.raises exc => (Except.error exc, l)
    else linkStep l

/-- Behaviour of the Telegram `send_message` text post: success; a
`NetworkError`/`TimedOut` raised on every backoff try (which the decorator
re-raises after 3 tries); or any other exception, whose class name the code
records as the `error_type`. -/
inductive TGSendRes where
  | ok
  | raisesNetwork (exc : String)
  | raisesOther (excName : String)
  deriving Repr, DecidableEq

/-- `post_to_telegram` (main.py lines 600–689).  With bot or channel id
missing it returns `False` without enqueueing.  For an article with a truthy
`image_url` the function **raises `NameError`** before any send:
`validate_image` (line 331) calls `image_processor.process_image`, and
`image_processor` is never imported in main.py; the backoff decorator catches
only `NetworkError`/`TimedOut`, so the `NameError` propagates immediately.
Without an image it goes straight to the text send: success → `True`;
`NetworkError`/`TimedOut` → re-raised after the backoff retries; any other
exception → caught, enqueue a telegram RetryEntry
(`error_type = type(e).__name__`), return `False`.  (The breaking-news pin
step cannot change the result and is elided.) -/
def post_to_telegram (creds hasImage : Bool) (sendRes : TGSendRes)
    (aid data : String) (l : List RetryEntry) (now : Int) :
    (Except String Bool) × List RetryEntry :=
  if !creds then (Except.ok false, l)
  else if hasImage then (Except.error "NameError", l)
  else
    match sendRes with
    | TGSendRes.ok => (Except.ok true, l)
    | TGSendRes.raisesNetwork exc => (Except.error exc, l)
    | TGSendRes.raisesOther excName =>
        (Except.ok false, add_failed_post l aid "telegram" excName data now)

/-- Behaviour of the `create_tweet` call: success, or an exception (whose
class name the code records as the `error_type`). -/
inductive XSendRes where
  | ok
  | raisesAny (excName : String)
  deriving Repr, DecidableEq

/-- `post_to_x` (main.py lines 498–527).  No client, or 0 tokens remaining in
the rate window (`if not await check_platform_rate_limit("x")`), returns
`False` **without** enqueueing; the tweet call is wrapped in
`try/except Exception`, so a raising call enqueues an `x` RetryEntry and
returns `False` — `post_to_x` never lets an exception escape (its backoff
decorator therefore never fires). -/
def post_to_x (clientOk : Bool) (remaining : Nat) (sendRes : XSendRes)
    (aid data : String) (l : List RetryEntry) (now : Int) :
    Bool × List RetryEntry :=
  if !clientOk then (false, l)
  else if remaining == 0 then (false, l)
  else
    match sendRes with
    | XSendRes.ok => (true, l)
    | XSendRes.raisesAny excName =>
        (false, add_failed_post l aid "x" excName data now)

/-- Outcome of the worker's publish fan-out for one article.  `attempted`
lists the `post_to_*` functions that were invoked; `aborted = some exc` means
a channel call raised and the worker's per-source `except` caught `exc`
(skipping everything after the raise, including `mark_as_posted`). -/
structure PublishReport where
  attempted : List Channel
  ledger : List RetryEntry
  marked_posted : Bool
  aborted : Option String
  fb_ok : Bool
  tg_ok : Bool
  x_ok : Bool
  deriving Repr, DecidableEq

/-- The worker's publish fan-out (main.py worker lines 864–885) together with
the surrounding per-source `try/except` (line 891): post to facebook, then
telegram, then x.  The `check_platform_rate_limit(...) is not None` guards
before facebook and telegram are always true (`acquire` returns an `int`),
so those calls are unconditional.  An exception raised by a channel call
aborts the fan-out — the remaining channels are not attempted and
`mark_as_posted` is not reached (`marked_posted = false`); when no call
raises, the article is marked posted iff `fb_ok or tg_ok or x_ok`. -/
def worker_publish (fbCreds : Bool) (photoRes linkRes : FBCallRes)
    (tgCreds : Bool) (tgSend : TGSendRes)
    (xClient : Bool) (xRemaining : Nat) (xSend : XSendRes)
    (hasImage : Bool) (aid data : String)
    (l : List RetryEntry) (now : Int) : PublishReport :=
  match post_to_facebook fbCreds hasImage photoRes linkRes aid data l now with
  | (Except.error exc, l) =>
      { attempted := [Channel.facebook], ledger := l, marked_posted := false,
        aborted := some exc, fb_ok := false, tg_ok := false, x_ok := false }
  | (Except.ok fbOk, l) =>
      match post_to_telegram tgCreds hasImage tgSend aid data l now with
      | (Except.error exc, l) =>
          { attempted := [Channel.facebook, Channel.telegram], ledger := l,
            marked_posted := false, aborted := some exc,
            fb_ok := fbOk, tg_ok := false, x_ok := false }
      | (Except.ok tgOk, l) =>
          let (xOk, l) := post_to_x xClient xRemaining xSend aid data l now
          { attempted := [Channel.facebook, Channel.telegram, Channel.x],
            ledger := l, marked_posted := fbOk || tgOk || xOk, aborted := none,
            fb_ok := fbOk, tg_ok := tgOk, x_ok := xOk }

/- ======================================================================
   Concrete instances used by witnesses and counterexamples
   ====================================================================== -/

/-- A well-formed sample article (long title and summary, image, known
source, no spam/sensitive keywords). -/
def sampleArticle : Article :=
  { title := "World leaders meet to discuss a new climate accord",
    link := "https://example.com/a",
    summary := String.mk (List.replicate 120 'a'),
    image_url := some "https://example.com/i.jpg",
    source := "BBC News" }

/-- The sample article, from a source with the default reputation weight. -/
def plainArticle : Article :=
  { title := "World leaders meet to discuss a new climate accord",
    link := "https://example.com/a",
    summary := String.mk (List.replicate 120 'a'),
    image_url := some "https://example.com/i.jpg",
    source := "Koh Santepheap" }

/-- An article whose title contains the configured sensitive keyword `sex`. -/
def sensArticle : Article :=
  { title := "Sex scandal rocks the national parliament today",
    link := "https://example.com/s",
    summary := String.mk (List.replicate 120 'b'),
    image_url := some "https://example.com/i.jpg",
    source := "BBC News" }

/-- A sample cached rendering. -/
def sampleContent : Content :=
  { title := some "t", body := some "b", summary := some "s", social_blurb := none }

/-- A freshly enqueued retry entry (as `add_failed_post` creates it). -/
def sampleRetryEntry : RetryEntry :=
  { id := 1, article_id := "a1", platform := "facebook", error_type := "NetworkError",
    retry_count := 0, next_retry := 60, status := RStatus.PENDING, article_data := "{}" }

/-- A store whose only trace of article `a1` is a pending-queue row. -/
def pendingOnlyStore : Store :=
  { posted := [], pending := [{ article_id := "a1", title := "t", status := "PENDING" }] }

/-- Scheduler state: not in burst mode, telegram last posted at t = 0. -/
def schedState : SchedulerState :=
  { burst_mode := false, last_post_time := [("telegram", 0)], last_category_time := [] }

/- ======================================================================
   Helper lemmas
   ====================================================================== -/

lemma countP_le_of_imp {α : Type} {p q : α → Bool} :
    ∀ l : List α, (∀ a ∈ l, p a = true → q a = true) → l.countP p ≤ l.countP q := by
  intro l h
  induction l with
  | nil => simp
  | cons a t ih =>
    have ht : t.countP p ≤ t.countP q := ih (fun x hx => h x (List.mem_cons_of_mem a hx))
    simp only [List.countP_cons]
    by_cases hp : p a = true
    · have hq : q a = true := h a (List.mem_cons_self a t) hp
      simp only [hp, hq, if_true]
      omega
    · simp only [hp, if_false]
      by_cases hq : q a = true <;> simp [hq] <;> omega

/- ======================================================================
   Claims
   ====================================================================== -/

/-- **C4** (confirmed).  `translate_content` never lets an exception escape to
its caller: for every article, cache state, breaker state and collaborator
behaviour the result is `.ok` of some rendering; on a cache hit it returns the
cached rendering unchanged; and whenever the primary Gemini call fails
(raises) the result is exactly the best-effort fallback
(`_fallback_translate`: secondary deterministic translator, or a verbatim
copy of the original when that also fails). -/
theorem C4_translate_never_raises (a : Article) (cached : Option Content)
    (cb : CircuitBreaker) (now : Int) (gemini fallbackCall : Except String Content) :
    (∃ c, (translate_content a cached cb now gemini fallbackCall).1 = Except.ok c) ∧
    (∀ c, cached = some c →
      (translate_content a cached cb now gemini fallbackCall).1 = Except.ok c) ∧
    (∀ e, cached = none → gemini = Except.error e →
      (translate_content a cached cb now gemini fallbackCall).1 =
        fallback_translate a fallbackCall) ∧
    (∃ c, fallback_translate a fallbackCall = Except.ok c) := by
  have hfb : ∃ c, fallback_translate a fallbackCall = Except.ok c := by
    cases fallbackCall with
    | ok c => exact ⟨c, rfl⟩
    | error e => exact ⟨_, rfl⟩
  refine ⟨?_, ?_, ?_, hfb⟩
  · cases cached with
    | some c => exact ⟨c, rfl⟩
    | none =>
      rcases hfb with ⟨c, hc⟩
      cases hall : (allow_request cb now).1 with
      | false => exact ⟨c, by simp [translate_content, hall, hc]⟩
      | true =>
        cases gemini with
        | error e => exact ⟨c, by simp [translate_content, hall, hc]⟩
        | ok result =>
          by_cases h1 : (!truthyOpt result.title || !truthyOpt result.body) = true
          · exact ⟨c, by simp [translate_content, hall, h1, hc]⟩
          · by_cases h2 :
                (!verify_translation a.summary ((result.summary).getD ((result.body).getD ""))) = true
            · exact ⟨c, by simp [translate_content, hall, h1, h2, hc]⟩
            · exact ⟨result, by simp [translate_content, hall, h1, h2]⟩
  · intro c hc; subst hc; rfl
  · intro e hc hg; subst hc; subst hg
    simp only [translate_content]
    cases hall : (allow_request cb now).1 <;> simp [hall]

/-- Witness for C4: on a cache hit (with both collaborators failing) the
cached rendering is returned unchanged. -/
theorem C4_witness :
    (some sampleContent = some sampleContent) ∧
    (translate_content sampleArticle (some sampleContent) (CircuitBreaker.init 5 600) 0
        (Except.error "boom") (Except.error "down")).1 = Except.ok sampleContent :=
  ⟨rfl,
   (C4_translate_never_raises sampleArticle (some sampleContent) (CircuitBreaker.init 5 600) 0
      (Except.error "boom") (Except.error "down")).2.1 sampleContent rfl⟩

/-- **C6** counterexample.  `is_posted` returns `true` for an id that has a
`pending_posts` row but **no** `PostedRecord` row, so PostedRecord existence
is not the sole idempotence gate and the claimed "only if" direction fails. -/
theorem C6_counterexample :
    pendingOnlyStore.posted = [] ∧ is_posted pendingOnlyStore "a1" = true := by
  exact ⟨rfl, by decide⟩

/-- **C6** (corrected).  What `is_posted` actually decides: an article id is
treated as already processed iff a `PostedRecord` row exists for it **or** a
`pending_posts` row (of any status) exists for it; writing a `PostedRecord`
via `mark_as_posted` always closes the gate for that id. -/
theorem C6_amended (s : Store) (aid : String) :
    (is_posted s aid = true ↔
      (∃ r ∈ s.posted, r.article_id = aid) ∨ (∃ r ∈ s.pending, r.article_id = aid)) ∧
    (∀ row : PostedRow, is_posted (mark_as_posted s row) row.article_id = true) := by
  constructor
  · simp only [is_posted, Bool.or_eq_true, List.any_eq_true, beq_iff_eq]
  · intro row
    simp only [mark_as_posted]
    by_cases h : s.posted.any (fun r => r.article_id == row.article_id) = true
    · simp [is_posted, h]
    · simp [is_posted, h]

lemma activeCount_append_single (l : List RetryEntry) (e : RetryEntry) (aid p : String) :
    activeCount (l ++ [e]) aid p =
      activeCount l aid p + (if isActiveFor aid p e then 1 else 0) := by
  simp [activeCount, List.countP_append, List.countP_cons]

lemma activeCount_eq_zero_of_not_hasActive (l : List RetryEntry) (aid p : String)
    (h : hasActive l aid p = false) : activeCount l aid p = 0 := by
  rw [activeCount, List.countP_eq_zero]
  intro x hx hpx
  have : hasActive l aid p = true := List.any_eq_true.mpr ⟨x, hx, hpx⟩
  rw [h] at this
  exact Bool.false_ne_true this

/-- **C7** (confirmed).  At most one active (PENDING/RETRYING) retry entry per
`(article, channel)` pair: enqueueing a failure for a pair that already has an
active entry is a no-op (no duplicate row); `add_failed_post` preserves the
invariant unconditionally; and `update_retry_status` preserves it for the
updates the retry worker performs (it only ever updates an id it just fetched
with `status = 'PENDING'`). -/
theorem C7_at_most_one_active (l : List RetryEntry) (hInv : AtMostOneActive l) :
    (∀ aid p et ad now, hasActive l aid p = true →
        add_failed_post l aid p et ad now = l) ∧
    (∀ aid p et ad now, AtMostOneActive (add_failed_post l aid p et ad now)) ∧
    (∀ id st rc dm now, (∀ e ∈ l, e.id = id → e.status = RStatus.PENDING) →
        AtMostOneActive (update_retry_status l id st rc dm now)) := by
  refine ⟨?_, ?_, ?_⟩
  · intro aid p et ad now h
    simp [add_failed_post, h]
  · intro aid p et ad now
    by_cases h : hasActive l aid p = true
    · simpa [add_failed_post, h] using hInv
    · rw [Bool.not_eq_true] at h
      intro aid' p'
      rw [add_failed_post, if_neg (by simp [h]), activeCount_append_single]
      by_cases hmatch : isActiveFor aid' p'
          { id := freshId l, article_id := aid, platform := p, error_type := et,
            retry_count := 0, next_retry := now + 60, status := RStatus.PENDING,
            article_data := ad } = true
      · have hpair : aid = aid' ∧ p = p' := by
          simp only [isActiveFor, Bool.and_eq_true, beq_iff_eq] at hmatch
          exact ⟨hmatch.1.1, hmatch.1.2⟩
        have hzero : activeCount l aid' p' = 0 := by
          rw [← hpair.1, ← hpair.2]
          exact activeCount_eq_zero_of_not_hasActive l aid p h
        simp [hmatch, hzero]
      · simp only [hmatch, if_false, Nat.add_zero]
        exact hInv aid' p'
  · intro id st rc dm now hpend aid' p'
    have hle : activeCount (update_retry_status l id st rc dm now) aid' p' ≤
        activeCount l aid' p' := by
      simp only [activeCount, update_retry_status, List.countP_map]
      refine countP_le_of_imp l ?_
      intro e he hp
      simp only [Function.comp] at hp
      by_cases hid : (e.id == id) = true
      · have hepend : e.status = RStatus.PENDING := hpend e he (beq_iff_eq.mp hid)
        by_cases hst : (st == RStatus.PENDING) = true
        · simp only [hid, hst, if_true] at hp
          simp only [isActiveFor, Bool.and_eq_true] at hp ⊢
          refine ⟨hp.1, ?_⟩
          simp [hepend]
        · simp only [hid, hst, if_true, if_false] at hp
          simp only [isActiveFor, Bool.and_eq_true] at hp ⊢
          refine ⟨hp.1, ?_⟩
          simp [hepend]
      · simpa [hid] using hp
    exact le_trans hle (hInv aid' p')

/-- Witness for C7, at the empty ledger. -/
theorem C7_witness :
    AtMostOneActive ([] : List RetryEntry) ∧
    ((∀ aid p et ad now, hasActive ([] : List RetryEntry) aid p = true →
        add_failed_post [] aid p et ad now = []) ∧
     (∀ aid p et ad now, AtMostOneActive (add_failed_post [] aid p et ad now)) ∧
     (∀ id st rc dm now, (∀ e ∈ ([] : List RetryEntry), e.id = id → e.status = RStatus.PENDING) →
        AtMostOneActive (update_retry_status [] id st rc dm now))) := by
  have hInv : AtMostOneActive ([] : List RetryEntry) := by
    intro aid p; simp [activeCount]
  exact ⟨hInv, C7_at_most_one_active [] hInv⟩

lemma failTrace_pending (e : RetryEntry) (h0 : e.retry_count = 0)
    (hs : e.status = RStatus.PENDING) :
    ∀ n, n ≤ 5 → (failTrace e n).retry_count = n ∧
      (failTrace e n).status = RStatus.PENDING := by
  intro n
  induction n with
  | zero => intro _; exact ⟨h0, hs⟩
  | succ k ih =>
    intro hk
    obtain ⟨hc, hst⟩ := ih (by omega)
    have hlt : ¬ (failTrace e k).retry_count ≥ 5 := by omega
    simp only [failTrace, retry_worker_step, hlt, if_false, Bool.false_eq_true]
    simp [hc]

/-- **C2** (confirmed).  Starting from a freshly enqueued entry
(`retry_count = 0`, `status = PENDING`), each of the first five due pickups
whose publish attempt fails makes an actual attempt and leaves the entry
`PENDING` with `retry_count` equal to the number of failed attempts so far —
in particular, the entry is never `DEAD` before 5 failed retry attempts have
occurred.  After exactly 5 failed attempts (`retry_count = 5`), the next
pickup marks the entry `DEAD` **without attempting again**; and in general
the worker marks any due `PENDING` entry with `retry_count ≥ 5`
(`max_retries = 5`) `DEAD` without an attempt. -/
theorem C2_dead_after_max_retries (e : RetryEntry) (h0 : e.retry_count = 0)
    (hs : e.status = RStatus.PENDING) :
    (∀ n, n ≤ 5 → (failTrace e n).retry_count = n ∧
        (failTrace e n).status ≠ RStatus.DEAD) ∧
    (∀ n now, n < 5 → (retry_worker_step (failTrace e n) now false).2 = true) ∧
    (∀ now b, retry_worker_step (failTrace e 5) now b =
        ({ failTrace e 5 with status := RStatus.DEAD }, false)) ∧
    (∀ e' : RetryEntry, ∀ now b, e'.retry_count ≥ 5 →
        retry_worker_step e' now b = ({ e' with status := RStatus.DEAD }, false)) := by
  have key := failTrace_pending e h0 hs
  refine ⟨?_, ?_, ?_, ?_⟩
  · intro n hn
    obtain ⟨hc, hst⟩ := key n hn
    exact ⟨hc, by rw [hst]; intro hfalse; cases hfalse⟩
  · intro n now hn
    obtain ⟨hc, _⟩ := key n (by omega)
    have hlt : ¬ (failTrace e n).retry_count ≥ 5 := by omega
    simp [retry_worker_step, hlt]
  · intro now b
    obtain ⟨hc, _⟩ := key 5 (by omega)
    have hge : (failTrace e 5).retry_count ≥ 5 := by omega
    simp [retry_worker_step, hge]
  · intro e' now b hge
    simp [retry_worker_step, hge]

/-- Witness for C2, at a concrete freshly enqueued entry. -/
theorem C2_witness :
    sampleRetryEntry.retry_count = 0 ∧ sampleRetryEntry.status = RStatus.PENDING ∧
    ((∀ n, n ≤ 5 → (failTrace sampleRetryEntry n).retry_count = n ∧
        (failTrace sampleRetryEntry n).status ≠ RStatus.DEAD) ∧
     (∀ n now, n < 5 →
        (retry_worker_step (failTrace sampleRetryEntry n) now false).2 = true) ∧
     (∀ now b, retry_worker_step (failTrace sampleRetryEntry 5) now b =
        ({ failTrace sampleRetryEntry 5 with status := RStatus.DEAD }, false)) ∧
     (∀ e' : RetryEntry, ∀ now b, e'.retry_count ≥ 5 →
        retry_worker_step e' now b = ({ e' with status := RStatus.DEAD }, false))) :=
  ⟨rfl, rfl, C2_dead_after_max_retries sampleRetryEntry rfl rfl⟩

lemma recordFailures_state (ft : Nat) (rt now : Int) (hft : 1 ≤ ft) :
    ∀ k, (recordFailures (CircuitBreaker.init ft rt) now k).failures = k ∧
      (recordFailures (CircuitBreaker.init ft rt) now k).failure_threshold = ft ∧
      (recordFailures (CircuitBreaker.init ft rt) now k).state =
        (if ft ≤ k then CBState.OPEN else CBState.CLOSED) := by
  intro k
  induction k with
  | zero =>
    refine ⟨rfl, rfl, ?_⟩
    have h : ¬ ft ≤ 0 := by omega
    simp [recordFailures, CircuitBreaker.init, h]
  | succ k ih =>
    obtain ⟨hf, hft, hst⟩ := ih
    by_cases h : ft ≤ k + 1
    · have : (recordFailures (CircuitBreaker.init ft rt) now k).failures + 1 ≥
          (recordFailures (CircuitBreaker.init ft rt) now k).failure_threshold := by
        rw [hf, hft]; omega
      simp [recordFailures, record_failure, this, hf, hft, h]
    · have : ¬ ((recordFailures (CircuitBreaker.init ft rt) now k).failures + 1 ≥
          (recordFailures (CircuitBreaker.init ft rt) now k).failure_threshold) := by
        rw [hf, hft]; omega
      have hk : ¬ ft ≤ k := by omega
      simp [recordFailures, record_failure, this, hf, hft, h, hst, hk]

/-- **C3** counterexample.  After the breaker opens (5 failures at `t = 0`,
defaults `failure_threshold = 5`, `recovery_timeout = 600`) and the timeout
elapses, `allow_request` moves to HALF-OPEN and allows a trial — but a second
`allow_request`, issued before any trial outcome is recorded, is **also**
allowed (`allow_request` returns `true` unconditionally in HALF-OPEN), so the
breaker does not allow *exactly one* trial call as claimed. -/
theorem C3_counterexample :
    (recordFailures (CircuitBreaker.init 5 600) 0 5).state = CBState.OPEN ∧
    (allow_request (recordFailures (CircuitBreaker.init 5 600) 0 5) 601).1 = true ∧
    (allow_request (recordFailures (CircuitBreaker.init 5 600) 0 5) 601).2.state
      = CBState.HALF_OPEN ∧
    (allow_request
      ((allow_request (recordFailures (CircuitBreaker.init 5 600) 0 5) 601).2) 601).1
      = true ∧
    (allow_request
      ((allow_request (recordFailures (CircuitBreaker.init 5 600) 0 5) 601).2) 601).2
      = (allow_request (recordFailures (CircuitBreaker.init 5 600) 0 5) 601).2 := by
  decide

/-- **C3** (corrected).  The state machine: starts CLOSED; reaches OPEN after
exactly `failure_threshold` consecutive recorded failures (and not before);
while OPEN, `allow_request` returns `false` until strictly more than
`recovery_timeout` has elapsed since the last failure, after which it moves to
HALF-OPEN and allows a trial call; while HALF-OPEN **every** `allow_request`
returns `true` (the one-trial limit is not enforced by `allow_request`;
exactly one trial occurs only if the trial's outcome is recorded before the
next request); recording the trial's success returns the breaker to CLOSED,
and recording its failure returns it to OPEN (the failure count, still at
threshold from the opening, re-trips it). -/
theorem C3_amended (ft : Nat) (rt now : Int) (cb : CircuitBreaker) :
    ((CircuitBreaker.init ft rt).state = CBState.CLOSED) ∧
    (1 ≤ ft → ∀ k, (recordFailures (CircuitBreaker.init ft rt) now k).state =
        (if ft ≤ k then CBState.OPEN else CBState.CLOSED)) ∧
    (cb.state = CBState.OPEN → now - cb.last_failure_time ≤ cb.recovery_timeout →
        allow_request cb now = (false, cb)) ∧
    (cb.state = CBState.OPEN → now - cb.last_failure_time > cb.recovery_timeout →
        allow_request cb now = (true, { cb with state := CBState.HALF_OPEN })) ∧
    (cb.state = CBState.HALF_OPEN → allow_request cb now = (true, cb)) ∧
    ((record_success cb).state = CBState.CLOSED) ∧
    (cb.failures ≥ cb.failure_threshold → (record_failure cb now).state = CBState.OPEN) := by
  refine ⟨rfl, ?_, ?_, ?_, ?_, rfl, ?_⟩
  · intro hft k
    exact (recordFailures_state ft rt now hft k).2.2
  · intro hst hle
    have : ¬ now - cb.last_failure_time > cb.recovery_timeout := by omega
    simp [allow_request, hst, this]
  · intro hst hgt
    simp [allow_request, hst, hgt]
  · intro hst
    simp [allow_request, hst]
  · intro hge
    have : cb.failures + 1 ≥ cb.failure_threshold := by omega
    simp [record_failure, this]

/-- Witness for C3, at the default breaker that has just tripped. -/
theorem C3_witness :
    ((recordFailures (CircuitBreaker.init 5 600) 0 5).state = CBState.OPEN ∧
     601 - (recordFailures (CircuitBreaker.init 5 600) 0 5).last_failure_time >
       (recordFailures (CircuitBreaker.init 5 600) 0 5).recovery_timeout) ∧
    allow_request (recordFailures (CircuitBreaker.init 5 600) 0 5) 601 =
      (true, { recordFailures (CircuitBreaker.init 5 600) 0 5 with
               state := CBState.HALF_OPEN }) :=
  ⟨⟨by decide, by decide⟩,
   (C3_amended 5 600 601 (recordFailures (CircuitBreaker.init 5 600) 0 5)).2.2.2.1
     (by decide) (by decide)⟩

lemma score_article_sensitive (a : Article) (ai : Option Classification)
    (hsens : SENSITIVE_KEYWORDS.any
      (fun kw => containsSub (lowerStr (a.title ++ " " ++ a.summary)) kw) = true) :
    score_article a ai = (0, ["Sensitive content detected"]) := by
  simp only [score_article]
  repeat' split
  all_goals first
    | rfl
    | exact absurd hsens (by assumption)

/-- **C5** (confirmed).  An article whose (lowercased) title-plus-summary text
contains a configured sensitive keyword scores exactly 0 with the single
reason "Sensitive content detected", regardless of title length, summary
length, image, source weight and classifier outcome; and since `0 < 60`, the
worker's quality gate discards such an article before the translation stage
(and hence before publish) is ever reached. -/
theorem C5_sensitive_hard_floor (a : Article) (ai : Option Classification)
    (hsens : SENSITIVE_KEYWORDS.any
      (fun kw => containsSub (lowerStr (a.title ++ " " ++ a.summary)) kw) = true) :
    score_article a ai = (0, ["Sensitive content detected"]) ∧
    (∀ postedAlready isDup, WorkerAction.translateStage ∉
        worker_process_entry postedAlready (score_article a ai).1 isDup) := by
  have hscore := score_article_sensitive a ai hsens
  refine ⟨hscore, ?_⟩
  intro postedAlready isDup
  rw [hscore]
  cases postedAlready <;> simp [worker_process_entry]

/-- Witness for C5, at a concrete article whose title contains `sex`. -/
theorem C5_witness :
    SENSITIVE_KEYWORDS.any
      (fun kw => containsSub
        (lowerStr (sensArticle.title ++ " " ++ sensArticle.summary)) kw) = true ∧
    (score_article sensArticle (some Classification.HighQualityNews) =
      (0, ["Sensitive content detected"]) ∧
     (∀ postedAlready isDup, WorkerAction.translateStage ∉
        worker_process_entry postedAlready
          (score_article sensArticle (some Classification.HighQualityNews)).1 isDup)) :=
  ⟨by decide,
   C5_sensitive_hard_floor sensArticle (some Classification.HighQualityNews) (by decide)⟩

lemma score_article_fst_eq (a : Article) (ai : Option Classification)
    (h3 : SENSITIVE_KEYWORDS.any
      (fun kw => containsSub (lowerStr (a.title ++ " " ++ a.summary)) kw) = false) :
    (score_article a ai).1 =
      (let b := score_base a +
        (if SPAM_KEYWORDS.any
            (fun kw => containsSub (lowerStr (a.title ++ " " ++ a.summary)) kw)
         then 0 else 10)
       match ai with
       | some Classification.HighQualityNews => min (b + 30) 100
       | some Classification.Clickbait => min b 100
       | some Classification.Spam => 0
       | some Classification.Sensitive => 0
       | none => min (b + 15) 100) := by
  simp only [score_article, score_base, h3, Bool.false_eq_true, if_false]
  by_cases h1 : a.title.length < 20 <;>
  by_cases h2 : a.summary.length < 100 <;>
  by_cases h5 : imageTruthy a.image_url = true <;>
  by_cases h4 : SPAM_KEYWORDS.any
      (fun kw => containsSub (lowerStr (a.title ++ " " ++ a.summary)) kw) = true <;>
  rcases ai with _ | c <;> (try rcases c) <;>
  simp [h1, h2, h4, h5]

lemma score_base_image (a : Article) :
    score_base a =
      score_base { a with image_url := none } +
        (if imageTruthy a.image_url then 10 else 0) := by
  by_cases h : imageTruthy a.image_url = true <;>
  simp [score_base, imageTruthy, h] <;> omega

/-- **C8** counterexample.  For a full-scoring article (long title and
summary, image, `BBC News` source, classifier says high quality) the
uncapped total with image is 104, clamped by `min(score, 100)` to 100;
removing the image yields 94.  The drop is 6, **not** the configured image
weight 10, so "reduces the score by exactly the image weight" fails. -/
theorem C8_counterexample :
    (score_article sampleArticle (some Classification.HighQualityNews)).1 = 100 ∧
    (score_article { sampleArticle with image_url := none }
        (some Classification.HighQualityNews)).1 = 94 := by
  exact ⟨by decide, by decide⟩

/-- **C8** (corrected).  Removing the image never increases the score; and it
reduces the score by exactly the image weight (10) provided the article has
an image to remove, no sensitive-keyword/classifier hard floor fires, and the
with-image score stays below the 100 cap. -/
theorem C8_image_weight (a : Article) (ai : Option Classification) :
    ((score_article { a with image_url := none } ai).1 ≤ (score_article a ai).1) ∧
    (imageTruthy a.image_url = true →
     SENSITIVE_KEYWORDS.any
       (fun kw => containsSub (lowerStr (a.title ++ " " ++ a.summary)) kw) = false →
     ai ≠ some Classification.Spam → ai ≠ some Classification.Sensitive →
     (score_article a ai).1 < 100 →
     (score_article a ai).1 = (score_article { a with image_url := none } ai).1 + 10) := by
  constructor
  · by_cases h3 : SENSITIVE_KEYWORDS.any
        (fun kw => containsSub (lowerStr (a.title ++ " " ++ a.summary)) kw) = true
    · rw [score_article_sensitive a ai h3,
        score_article_sensitive { a with image_url := none } ai (by simpa using h3)]
    · rw [Bool.not_eq_true] at h3
      rw [score_article_fst_eq a ai h3,
        score_article_fst_eq { a with image_url := none } ai (by simpa using h3)]
      have hb := score_base_image a
      dsimp only
      rcases ai with _ | c <;> (try rcases c) <;>
        first
          | rfl
          | (by_cases h4 : (SPAM_KEYWORDS.any fun kw =>
                containsSub (lowerStr (a.title ++ " " ++ a.summary)) kw) = true <;>
             simp only [h4, if_true, if_false, Bool.false_eq_true] <;>
             split at hb <;> omega)
  · intro himg hsens hnspam hnsens hcap
    rw [score_article_fst_eq a ai hsens] at hcap ⊢
    rw [score_article_fst_eq { a with image_url := none } ai (by simpa using hsens)]
    have hb := score_base_image a
    rw [himg, if_pos rfl] at hb
    dsimp only at hcap ⊢
    rcases ai with _ | c <;> (try rcases c) <;>
      first
        | exact absurd rfl hnspam
        | exact absurd rfl hnsens
        | (by_cases h4 : (SPAM_KEYWORDS.any fun kw =>
              containsSub (lowerStr (a.title ++ " " ++ a.summary)) kw) = true <;>
           simp only [h4, if_true, if_false, Bool.false_eq_true] at hcap ⊢ <;> omega)

/-- Witness for C8: a concrete uncapped article (default-weight source,
neutral classifier outcome) loses exactly 10 points when its image is
removed. -/
theorem C8_witness :
    (imageTruthy plainArticle.image_url = true ∧
     SENSITIVE_KEYWORDS.any
       (fun kw => containsSub
         (lowerStr (plainArticle.title ++ " " ++ plainArticle.summary)) kw) = false ∧
     (none : Option Classification) ≠ some Classification.Spam ∧
     (none : Option Classification) ≠ some Classification.Sensitive ∧
     (score_article plainArticle none).1 < 100) ∧
    (score_article plainArticle none).1 =
      (score_article { plainArticle with image_url := none } none).1 + 10 :=
  ⟨⟨by decide, by decide, by decide, by decide, by decide⟩,
   (C8_image_weight plainArticle none).2 (by decide) (by decide) (by decide)
     (by decide) (by decide)⟩

/-- **C9** counterexample.  At 08:00 ICT (a configured peak hour), 200 s after
the last telegram post, the claimed halved minimum spacing (150 s) has
elapsed — the claim's version of the policy admits the post — but the code's
`can_post` still returns `false`: `can_post` never halves the spacing during
peak hours (`is_peak_hour` is not consulted by `can_post` at all). -/
theorem C9_counterexample :
    is_peak_hour 8 = true ∧
    can_post_claimVersion schedState 200 8 "telegram" "tech" 2 = true ∧
    can_post schedState 200 8 "telegram" "tech" 2 = false := by
  decide

/-- **C9** (corrected).  For every non-breaking post (`priority < 3`),
`can_post` requires the per-channel minimum spacing to have elapsed, where
the minimum is `MIN_PLATFORM_DELAY` (300 s), replaced by `BURST_DELAY`
(60 s) in burst mode — peak hours have **no** effect on it: `can_post`
returns `false` whenever less than this minimum has elapsed since the
channel's last recorded post, a `true` answer guarantees the minimum has
elapsed, and the current hour influences `can_post` only through the
off-hours rule. -/
theorem C9_platform_spacing (s : SchedulerState) (now : Int) (hour : Nat)
    (platform category : String) (priority : Int) (hpr : priority < 3) :
    (now - dictGetD s.last_post_time platform <
        (if s.burst_mode then BURST_DELAY else MIN_PLATFORM_DELAY) →
      can_post s now hour platform category priority = false) ∧
    (can_post s now hour platform category priority = true →
      ¬ (now - dictGetD s.last_post_time platform <
        (if s.burst_mode then BURST_DELAY else MIN_PLATFORM_DELAY))) ∧
    (∀ hour₂, is_off_hour s hour = is_off_hour s hour₂ →
      can_post s now hour platform category priority =
        can_post s now hour₂ platform category priority) := by
  have hpge : ¬ priority ≥ 3 := by omega
  have h1 : now - dictGetD s.last_post_time platform <
      (if s.burst_mode then BURST_DELAY else MIN_PLATFORM_DELAY) →
      can_post s now hour platform category priority = false := by
    intro hlt
    simp only [can_post]
    rw [if_neg hpge]
    by_cases hoff : (!s.burst_mode && is_off_hour s hour) = true
    · rw [if_pos hoff]
    · rw [if_neg hoff, if_pos hlt]
  refine ⟨h1, ?_, ?_⟩
  · intro htrue hlt
    rw [h1 hlt] at htrue
    exact Bool.false_ne_true htrue
  · intro hour₂ heq
    simp only [can_post, heq]

/-- Witness for C9: between posts (100 s < 300 s elapsed, outside burst
mode) the scheduler refuses a normal-priority telegram post. -/
theorem C9_witness :
    ((2 : Int) < 3 ∧
     (100 : Int) - dictGetD schedState.last_post_time "telegram" <
       (if schedState.burst_mode then BURST_DELAY else MIN_PLATFORM_DELAY)) ∧
    can_post schedState 100 8 "telegram" "tech" 2 = false :=
  ⟨⟨by decide, by decide⟩,
   (C9_platform_spacing schedState 100 8 "telegram" "tech" 2 (by decide)).1 (by decide)⟩

/-- **C10** (confirmed).  The sliding-window rate limiter: with budget
`{calls := 5, period := 1 s}` (time in tenths of a second) five concurrent
`acquire` calls all finish at their arrival instant 0, and the sixth finishes
at 1.1 s — at least 1 s after the first; in general `acquire` retains only
timestamps younger than `period`, admits immediately (recording the call)
while the pruned window is under budget, and once the window is full it
suspends exactly until the oldest retained timestamp exits the window plus
the 0.1 s buffer (so it finishes strictly after `now`). -/
theorem C10_rate_limiter (usage : List Int) (now : Int) (lim : RateLimit) :
    ((serial_acquires { calls := 5, period := 10 } [0, 0, 0, 0, 0, 0]).finishes
        = [0, 0, 0, 0, 0, 11]) ∧
    (∀ t ∈ pruneWindow usage now lim.period, now - t < lim.period ∧ t ∈ usage) ∧
    ((pruneWindow usage now lim.period).length < lim.calls →
      (acquire_step usage now lim).finish = now ∧
      (acquire_step usage now lim).usage = pruneWindow usage now lim.period ++ [now]) ∧
    ((pruneWindow usage now lim.period).length ≥ lim.calls → 1 ≤ lim.calls →
      (acquire_step usage now lim).finish =
        (pruneWindow usage now lim.period).headD 0 + lim.period + 1 ∧
      (acquire_step usage now lim).finish > now) := by
  refine ⟨by decide, ?_, ?_, ?_⟩
  · intro t ht
    rw [pruneWindow, List.mem_filter] at ht
    exact ⟨by simpa using ht.2, ht.1⟩
  · intro hlt
    have hnot : ¬ (pruneWindow usage now lim.period).length ≥ lim.calls := by omega
    rw [acquire_step, if_neg hnot]
    exact ⟨rfl, rfl⟩
  · intro hge hcalls
    have hne : pruneWindow usage now lim.period ≠ [] := by
      intro hnil
      rw [hnil] at hge
      simp at hge
      omega
    have hfin : (acquire_step usage now lim).finish =
        (pruneWindow usage now lim.period).headD 0 + lim.period + 1 := by
      rw [acquire_step, if_pos hge]
      dsimp only
      omega
    refine ⟨hfin, ?_⟩
    rw [hfin]
    have hhead : (pruneWindow usage now lim.period).headD 0 ∈
        pruneWindow usage now lim.period := by
      rcases List.exists_cons_of_ne_nil hne with ⟨h0, t0, heq⟩
      rw [heq]
      simp
    rw [pruneWindow, List.mem_filter] at hhead
    have : now - (pruneWindow usage now lim.period).headD 0 < lim.period :=
      of_decide_eq_true hhead.2
    omega

/-- Witness for C10: at a full window of five timestamps at 0, the sixth
admission is deferred to `oldest + period + buffer`. -/
theorem C10_witness :
    ((pruneWindow [0, 0, 0, 0, 0] 0 (10 : Int)).length ≥ 5 ∧ (1 : Nat) ≤ 5) ∧
    ((acquire_step [0, 0, 0, 0, 0] 0 { calls := 5, period := 10 }).finish =
        (pruneWindow [0, 0, 0, 0, 0] 0 (10 : Int)).headD 0 + 10 + 1 ∧
     (acquire_step [0, 0, 0, 0, 0] 0 { calls := 5, period := 10 }).finish > 0) :=
  ⟨⟨by decide, by decide⟩,
   (C10_rate_limiter [0, 0, 0, 0, 0] 0 { calls := 5, period := 10 }).2.2.2
     (by decide) (by decide)⟩

/-- The "freshly enqueued, still pending" row predicate for a pair. -/
lemma countP_fresh_pending_add (l : List RetryEntry) (aid p et ad : String) (now : Int)
    (h : hasActive l aid p = false) :
    (add_failed_post l aid p et ad now).countP
      (fun e => e.article_id == aid && e.platform == p &&
        e.retry_count == 0 && e.status == RStatus.PENDING) = 1 := by
  have hzero : l.countP
      (fun e => e.article_id == aid && e.platform == p &&
        e.retry_count == 0 && e.status == RStatus.PENDING) = 0 := by
    rw [List.countP_eq_zero]
    intro e he hpe
    simp only [Bool.and_eq_true, beq_iff_eq] at hpe
    have hact : isActiveFor aid p e = true := by
      simp only [isActiveFor, Bool.and_eq_true, Bool.or_eq_true, beq_iff_eq]
      exact ⟨⟨hpe.1.1.1, hpe.1.1.2⟩, Or.inl hpe.2⟩
    have : hasActive l aid p = true := List.any_eq_true.mpr ⟨e, he, hact⟩
    rw [h] at this
    exact Bool.false_ne_true this
  rw [add_failed_post, if_neg (by simp [h]), List.countP_append, hzero]
  simp

lemma countP_pending_add_other (l : List RetryEntry) (aid p aid2 p2 et ad : String)
    (now : Int) (hne : (p2 == p) = false) :
    (add_failed_post l aid2 p2 et ad now).countP
      (fun e => e.article_id == aid && e.platform == p &&
        e.retry_count == 0 && e.status == RStatus.PENDING) =
    l.countP
      (fun e => e.article_id == aid && e.platform == p &&
        e.retry_count == 0 && e.status == RStatus.PENDING) := by
  rw [add_failed_post]
  split
  · rfl
  · rw [List.countP_append]
    simp [hne]

/-- **C1** counterexample.  Two concrete traces, one per facebook failure
mode, each refuting a different conjunct of the claim.
(A) The critical-channel publish **raises** a network error (the claim's own
scenario): `post_to_facebook` has no try/except and its backoff re-raises
after three tries, so the worker's per-source `except` aborts the entry —
no secondary channel is attempted and the article is not marked posted, but
the ledger stays **empty**: "exactly one RetryEntry with retry_count = 0 and
status = PENDING is enqueued for the critical channel" is false.
(B) The publish fails with an **error response** (no-image article, link post
rejected): one RetryEntry is enqueued, but telegram is still attempted (and
succeeds) and the article **is** marked posted: "it does not attempt any
secondary channel, the article is not marked posted" is false. -/
theorem C1_counterexample :
    ((worker_publish true (FBCallRes.raises "ClientConnectorError") FBCallRes.ok200
        true TGSendRes.ok true 5 XSendRes.ok true "a1" "{}" [] 0).attempted
        = [Channel.facebook] ∧
     (worker_publish true (FBCallRes.raises "ClientConnectorError") FBCallRes.ok200
        true TGSendRes.ok true 5 XSendRes.ok true "a1" "{}" [] 0).marked_posted
        = false ∧
     (worker_publish true (FBCallRes.raises "ClientConnectorError") FBCallRes.ok200
        true TGSendRes.ok true 5 XSendRes.ok true "a1" "{}" [] 0).ledger = []) ∧
    ((worker_publish true FBCallRes.ok200 (FBCallRes.errorResponse "Invalid OAuth")
        true TGSendRes.ok true 5 XSendRes.ok false "a1" "{}" [] 0).fb_ok = false ∧
     Channel.telegram ∈
       (worker_publish true FBCallRes.ok200 (FBCallRes.errorResponse "Invalid OAuth")
          true TGSendRes.ok true 5 XSendRes.ok false "a1" "{}" [] 0).attempted ∧
     (worker_publish true FBCallRes.ok200 (FBCallRes.errorResponse "Invalid OAuth")
        true TGSendRes.ok true 5 XSendRes.ok false "a1" "{}" [] 0).tg_ok = true ∧
     (worker_publish true FBCallRes.ok200 (FBCallRes.errorResponse "Invalid OAuth")
        true TGSendRes.ok true 5 XSendRes.ok false "a1" "{}" [] 0).marked_posted
        = true ∧
     (worker_publish true FBCallRes.ok200 (FBCallRes.errorResponse "Invalid OAuth")
        true TGSendRes.ok true 5 XSendRes.ok false "a1" "{}" [] 0).ledger.countP
       (fun e => e.article_id == "a1" && e.platform == "facebook" &&
         e.retry_count == 0 && e.status == RStatus.PENDING) = 1) := by
  decide

/-- **C1** (corrected).  The worker designates no critical channel by design,
but facebook is attempted first and the per-source exception handler governs
failures:
(a) a **raising** facebook publish (e.g. a network error persisting through
the backoff retries) aborts the fan-out — no secondary channel is attempted,
the article is not marked posted, and **no** RetryEntry is enqueued;
(b) a facebook failure by **error response** (no-image article, link post
rejected) enqueues exactly one RetryEntry with `retry_count = 0` and
`status = PENDING` for facebook (when none is active) and telegram is still
attempted;
(c) whenever no channel call raises, all three channels are attempted and
the article is marked posted iff at least one attempt succeeded;
(d) for an article with an image, `post_to_telegram` raises `NameError`
(`validate_image` references the never-imported `image_processor`), so x is
not attempted and the article is not marked posted even after a successful
facebook photo post. -/
theorem C1_publish_fanout (photoRes linkRes : FBCallRes) (tgCreds : Bool)
    (tgSend : TGSendRes) (xClient : Bool) (xRemaining : Nat) (xSend : XSendRes)
    (hasImage : Bool) (aid d : String) (l : List RetryEntry) (now : Int) :
    (∀ exc, (hasImage = true ∧ photoRes = FBCallRes.raises exc) ∨
            (hasImage = false ∧ linkRes = FBCallRes.raises exc) →
      worker_publish true photoRes linkRes tgCreds tgSend xClient xRemaining xSend
          hasImage aid d l now =
        { attempted := [Channel.facebook], ledger := l, marked_posted := false,
          aborted := some exc, fb_ok := false, tg_ok := false, x_ok := false }) ∧
    (∀ m, hasImage = false → linkRes = FBCallRes.errorResponse m →
      hasActive l aid "facebook" = false →
      (worker_publish true photoRes linkRes tgCreds tgSend xClient xRemaining xSend
          hasImage aid d l now).fb_ok = false ∧
      Channel.telegram ∈
        (worker_publish true photoRes linkRes tgCreds tgSend xClient xRemaining xSend
            hasImage aid d l now).attempted ∧
      (worker_publish true photoRes linkRes tgCreds tgSend xClient xRemaining xSend
          hasImage aid d l now).ledger.countP
        (fun e => e.article_id == aid && e.platform == "facebook" &&
          e.retry_count == 0 && e.status == RStatus.PENDING) = 1) ∧
    ((worker_publish true photoRes linkRes tgCreds tgSend xClient xRemaining xSend
        hasImage aid d l now).aborted = none →
      (worker_publish true photoRes linkRes tgCreds tgSend xClient xRemaining xSend
          hasImage aid d l now).attempted
        = [Channel.facebook, Channel.telegram, Channel.x] ∧
      (worker_publish true photoRes linkRes tgCreds tgSend xClient xRemaining xSend
          hasImage aid d l now).marked_posted
        = ((worker_publish true photoRes linkRes tgCreds tgSend xClient xRemaining xSend
              hasImage aid d l now).fb_ok ||
           (worker_publish true photoRes linkRes tgCreds tgSend xClient xRemaining xSend
              hasImage aid d l now).tg_ok ||
           (worker_publish true photoRes linkRes tgCreds tgSend xClient xRemaining xSend
              hasImage aid d l now).x_ok)) ∧
    (hasImage = true → photoRes = FBCallRes.ok200 → tgCreds = true →
      worker_publish true photoRes linkRes tgCreds tgSend xClient xRemaining xSend
          hasImage aid d l now =
        { attempted := [Channel.facebook, Channel.telegram], ledger := l,
          marked_posted := false, aborted := some "NameError", fb_ok := true,
          tg_ok := false, x_ok := false }) := by
  refine ⟨?_, ?_, ?_, ?_⟩
  · intro exc h
    rcases h with ⟨h1, h2⟩ | ⟨h1, h2⟩ <;> subst h1 <;> subst h2 <;> rfl
  · intro m h1 h2 hact
    subst h1; subst h2
    have hfb1 := countP_fresh_pending_add l aid "facebook" ("FBLinkError: " ++ m) d now hact
    cases tgCreds <;> cases tgSend <;> cases xClient <;> cases xSend <;>
      cases xRemaining <;>
      refine ⟨rfl,
        by simp [worker_publish, post_to_facebook, post_to_telegram, post_to_x], ?_⟩ <;>
      first
        | exact hfb1
        | exact (countP_pending_add_other _ aid "facebook" aid "telegram" _ d now
            (by decide)).trans hfb1
        | exact (countP_pending_add_other _ aid "facebook" aid "x" _ d now
            (by decide)).trans hfb1
        | exact (countP_pending_add_other _ aid "facebook" aid "x" _ d now
            (by decide)).trans
            ((countP_pending_add_other _ aid "facebook" aid "telegram" _ d now
              (by decide)).trans hfb1)
  · intro habort
    rcases hfb : post_to_facebook true hasImage photoRes linkRes aid d l now
      with ⟨res1, l1⟩
    cases res1 with
    | error exc =>
      simp only [worker_publish, hfb] at habort
      exact Option.noConfusion habort
    | ok fbOk =>
      rcases htg : post_to_telegram tgCreds hasImage tgSend aid d l1 now
        with ⟨res2, l2⟩
      cases res2 with
      | error exc =>
        simp only [worker_publish, hfb, htg] at habort
        exact Option.noConfusion habort
      | ok tgOk =>
        rcases hx : post_to_x xClient xRemaining xSend aid d l2 now with ⟨xOk, l3⟩
        simp [worker_publish, hfb, htg, hx]
  · intro h1 h2 h3
    subst h1; subst h2; subst h3
    rfl

/-- Witness for C1, exercising conjunct (b) at a concrete no-image article
whose facebook link post is rejected while telegram and x succeed. -/
theorem C1_witness :
    ((false : Bool) = false ∧
     FBCallRes.errorResponse "Invalid OAuth" = FBCallRes.errorResponse "Invalid OAuth" ∧
     hasActive [] "a1" "facebook" = false) ∧
    ((worker_publish true FBCallRes.ok200 (FBCallRes.errorResponse "Invalid OAuth")
        true TGSendRes.ok true 5 XSendRes.ok false "a1" "{}" [] 0).fb_ok = false ∧
     Channel.telegram ∈
       (worker_publish true FBCallRes.ok200 (FBCallRes.errorResponse "Invalid OAuth")
          true TGSendRes.ok true 5 XSendRes.ok false "a1" "{}" [] 0).attempted ∧
     (worker_publish true FBCallRes.ok200 (FBCallRes.errorResponse "Invalid OAuth")
        true TGSendRes.ok true 5 XSendRes.ok false "a1" "{}" [] 0).ledger.countP
       (fun e => e.article_id == "a1" && e.platform == "facebook" &&
         e.retry_count == 0 && e.status == RStatus.PENDING) = 1) :=
  ⟨⟨rfl, rfl, by decide⟩,
   (C1_publish_fanout FBCallRes.ok200 (FBCallRes.errorResponse "Invalid OAuth")
       true TGSendRes.ok true 5 XSendRes.ok false "a1" "{}" [] 0).2.1
     "Invalid OAuth" rfl rfl (by decide)⟩
